import Mathlib

/-!
Shallow embedding of the yandex-cloud-instance-start service layer
(src/services.py, src/auth.py, src/utils.py, src/parse.py).

File I/O, HTTP and clock effects are made explicit: the JWT cache file is a
`CacheState` value threaded through the functions, the identity endpoint and
the compute endpoints are oracles carried in environment records, and each
function additionally reports the observable effects the claims talk about
(number of identity exchanges, the list requests issued, the start calls
issued, the resulting cache state).
-/

namespace YandexCloud

/-! ### JWT cache (src/services.py, class JWTCache) -/

/-- State of the cache file `jwt_cache.json`: absent, unreadable/corrupt JSON,
or a record holding an optional `jwt` field and an `expiry` field
(a missing expiry defaults to 0 via the dict lookup, which we encode by
constructing the record with expiry 0). -/
inductive CacheState where
  | absent : CacheState
  | corrupt : CacheState
  | record : Option String → Int → CacheState
deriving DecidableEq

namespace JWTCache

/-- Embeds `JWTCache.load`: a missing file or a JSON/IO error yields `(None, 0)`;
otherwise the stored `jwt` (possibly absent) and `expiry` are returned. -/
def load : CacheState → Option String × Int
  | .absent => (none, 0)
  | .corrupt => (none, 0)
  | .record jwt expiry => (jwt, expiry)

/-- Embeds `JWTCache.save`: overwrites the cache file wholesale with the record
holding the jwt and expiry fields. -/
def save (jwt : String) (expiry : Int) (_ : CacheState) : CacheState :=
  .record (some jwt) expiry

end JWTCache

/-- Python truthiness of the loaded token: `not iam_token` is true exactly
when the token is `None` or the empty string. -/
def truthyStr : Option String → Bool
  | none => false
  | some s => s != ""

/-- Environment seen by `_get_valid_jwt`: the current clock reading
`int(time.time())`, the outcome of `auth.get_iam_token()` (an IAM token and
its ISO-8601 `expiresAt` string, or a raised error), and the external
`dateutil`-backed conversion `utils.iso_to_unix`. -/
structure AuthEnv where
  now : Int
  identity : Except String (String × String)
  isoToUnix : String → Int

/-- Observable result of `_get_valid_jwt`: the returned token, the expiry
recorded for it (the cached expiry, or the converted `expiresAt` when
refreshed), the cache state after the call, and how many identity exchanges
(`get_iam_token` calls) were performed. -/
structure JwtResult where
  token : String
  expiry : Int
  cacheAfter : CacheState
  exchanges : Nat
deriving DecidableEq

/-- Embeds `YandexComputeService._get_valid_jwt`: load the cache; if the token is
falsy or `now >= iam_expiry - 300`, call `get_iam_token`, convert the ISO
expiry, save, and return the fresh token; otherwise return the cached token
with the cache untouched. -/
def getValidJwt (env : AuthEnv) (cache : CacheState) : Except String JwtResult :=
  if truthyStr (JWTCache.load cache).1 = false
      ∨ env.now ≥ (JWTCache.load cache).2 - 300 then
    match env.identity with
    | .error e => .error e
    | .ok te =>
        .ok ⟨te.1, env.isoToUnix te.2,
             JWTCache.save te.1 (env.isoToUnix te.2) cache, 1⟩
  else
    .ok ⟨(JWTCache.load cache).1.getD "", (JWTCache.load cache).2, cache, 0⟩

/-! ### HTTP layer (src/services.py, _make_request / start_instance / stop_instance) -/

/-- An HTTP response as the code observes it: status code, body text, and the
decoded JSON body. -/
structure HttpResponse (α : Type) where
  status_code : Nat
  text : String
  body : α
deriving DecidableEq

/-- The data carried by a raised `requests.RequestException` built from a
response: the response status code and its body text. -/
structure ApiError where
  status : Nat
  body : String
deriving DecidableEq

/-- Message text of the exception raised by `_make_request`. -/
def apiErrorMessage (e : ApiError) : String :=
  "API request failed with status " ++ toString e.status ++ ": " ++ e.body

/-- Message text of the exception raised by `start_instance`. -/
def startErrorMessage (e : ApiError) : String :=
  "Start operation failed with status " ++ toString e.status ++ ": " ++ e.body

/-- Message text of the exception raised by `stop_instance`. -/
def stopErrorMessage (e : ApiError) : String :=
  "Stop operation failed with status " ++ toString e.status ++ ": " ++ e.body

/-- Embeds the `_make_request` response handling: on status 200 return the decoded JSON
body, otherwise raise an error carrying the status code and body text. -/
def make_request {α : Type} (resp : HttpResponse α) : Except ApiError α :=
  if resp.status_code = 200 then .ok resp.body
  else .error ⟨resp.status_code, resp.text⟩

/-- Embeds the `start_instance` response handling (the POST duplicates the same
status-200 check as `_make_request`). -/
def start_instance {α : Type} (resp : HttpResponse α) : Except ApiError α :=
  if resp.status_code = 200 then .ok resp.body
  else .error ⟨resp.status_code, resp.text⟩

/-- Embeds the `stop_instance` response handling (same duplicated status-200 check). -/
def stop_instance {α : Type} (resp : HttpResponse α) : Except ApiError α :=
  if resp.status_code = 200 then .ok resp.body
  else .error ⟨resp.status_code, resp.text⟩

/-! ### Compute client and auto-start controller -/

/-- A raw instance dict as read by the controller: the fields it accesses via
`.get`, each possibly absent. -/
structure Instance where
  id : Option String
  name : Option String
  status : Option String
deriving DecidableEq

/-- Decoded JSON body of the list endpoint: the `instances` and
`nextPageToken` keys, each possibly absent. -/
structure ListBody where
  instances : Option (List Instance)
  nextPageToken : Option String
deriving DecidableEq

/-- The request parameters `list_instances` sends: `folderId`, `pageSize`,
and the `pageToken` entry of the params dict (absent when not set). -/
structure ListRequest where
  folderId : String
  pageSize : Nat
  pageToken : Option String
deriving DecidableEq

/-- Embeds `if page_token:` — the `pageToken` param is set only when the token
supplied by the caller is truthy (neither `None` nor the empty string). -/
def normalizeToken : Option String → Option String
  | none => none
  | some s => if s = "" then none else some s

/-- Environment seen by the compute client: the configured folder id, the
outcome of the single list GET (a network-level error string, or an HTTP
response whose body is the decoded list JSON), and per-instance-id outcomes
of start POSTs (a network-level error string, or an HTTP response; the
response JSON is ignored by the controller, hence `Unit`). -/
structure ComputeEnv where
  folderId : String
  listOutcome : Except String (HttpResponse ListBody)
  startOutcome : Option String → Except String (HttpResponse Unit)

/-- Embeds `YandexComputeService.list_instances`: build the params dict, issue the
GET through `_make_request`, and shape the result as
`{"instances": data.get("instances", []), "nextPageToken": data.get("nextPageToken")}`.
Returns the request actually issued alongside the outcome. -/
def list_instances (env : ComputeEnv) (page_size : Nat) (page_token : Option String) :
    ListRequest × Except String (List Instance × Option String) :=
  (⟨env.folderId, page_size, normalizeToken page_token⟩,
   match env.listOutcome with
   | .error e => .error e
   | .ok resp =>
       match make_request resp with
       | .error e => .error (apiErrorMessage e)
       | .ok body => .ok (body.instances.getD [], body.nextPageToken))

/-- One `self.start_instance(instance_id)` call as the controller sees it:
a network-level exception, the raised status error, or success. -/
def tryStart (env : ComputeEnv) (iid : Option String) : Except String Unit :=
  match env.startOutcome iid with
  | .error e => .error e
  | .ok resp =>
      match start_instance resp with
      | .error e => .error (startErrorMessage e)
      | .ok _ => .ok ()

/-- Entry appended to `started`: `{"id": instance_id, "name": instance_name}`. -/
structure StartEntry where
  id : Option String
  name : String
deriving DecidableEq

/-- Entry appended to `failed`:
`{"id": instance_id, "name": instance_name, "error": str(e)}`. -/
structure FailEntry where
  id : Option String
  name : String
  error : String
deriving DecidableEq

/-- The dictionary returned by `auto_start_stopped_instances`; `error` is the
top-level key present only on a listing failure. -/
structure AutoStartResult where
  started : List StartEntry
  failed : List FailEntry
  total_stopped : Nat
  error : Option String
deriving DecidableEq

/-- Fields `instance.get("name", "unnamed")` and `instance.get("id")` shaped into a
`started` entry. -/
def toStartEntry (inst : Instance) : StartEntry :=
  ⟨inst.id, inst.name.getD "unnamed"⟩

/-- Loop body of the batch: try to start the instance and append to `started`
or `failed`; the third component records the start call issued. -/
def startStep (env : ComputeEnv)
    (acc : List StartEntry × List FailEntry × List (Option String))
    (inst : Instance) : List StartEntry × List FailEntry × List (Option String) :=
  match tryStart env inst.id with
  | .ok _ => (acc.1 ++ [toStartEntry inst], acc.2.1, acc.2.2 ++ [inst.id])
  | .error e =>
      (acc.1, acc.2.1 ++ [⟨inst.id, inst.name.getD "unnamed", e⟩], acc.2.2 ++ [inst.id])

/-- The instances of the first page whose `status` equals `"STOPPED"`. -/
def stoppedOf (res : List Instance × Option String) : List Instance :=
  res.1.filter (fun i => i.status == some "STOPPED")

/-- The `for instance in stopped_instances:` loop, with empty accumulators. -/
def runBatch (env : ComputeEnv) (stopped : List Instance) :
    List StartEntry × List FailEntry × List (Option String) :=
  stopped.foldl (startStep env) ([], [], [])

/-- Embeds `YandexComputeService.auto_start_stopped_instances`: one
`self.list_instances()` call (defaults: page size 50, no page token), filter
stopped instances, run the batch; on a listing exception return the empty
result annotated with `error`. Alongside the result it reports the list
requests issued and the start calls issued, in order. -/
def auto_start_stopped_instances (env : ComputeEnv) :
    AutoStartResult × List ListRequest × List (Option String) :=
  match (list_instances env 50 none).2 with
  | .error e => (⟨[], [], 0, some e⟩, [(list_instances env 50 none).1], [])
  | .ok res =>
      (⟨(runBatch env (stoppedOf res)).1, (runBatch env (stoppedOf res)).2.1,
        (stoppedOf res).length, none⟩,
       [(list_instances env 50 none).1],
       (runBatch env (stoppedOf res)).2.2)

/-! ### Uptime calculation (src/parse.py, InstanceParser.calculate_uptime) -/

/-- Embeds `InstanceParser.calculate_uptime`, parametrized by the external
`datetime.fromisoformat` parser (returning the parsed creation time as Unix
seconds, or `none` when parsing raises) and the current time. A non-RUNNING
status yields "N/A"; a parse failure is caught and yields "N/A"; otherwise
the timedelta `now - created` is rendered, with the Python floor-based
timedelta normalization (`days` may be negative, `seconds` is in
`[0, 86400)`). -/
def calculate_uptime (parseIso : String → Option Int) (now : Int)
    (created_at : String) (status : String) : String :=
  if status ≠ "RUNNING" then "N/A"
  else
    match parseIso (created_at.replace "Z" "+00:00") with
    | none => "N/A"
    | some created =>
        let days := Int.fdiv (now - created) 86400
        let secs := (Int.fmod (now - created) 86400).toNat
        let hours := secs / 3600
        let minutes := secs % 3600 / 60
        if days > 0 then
          toString days ++ "d " ++ toString hours ++ "h " ++ toString minutes ++ "m"
        else if hours > 0 then
          toString hours ++ "h " ++ toString minutes ++ "m"
        else
          toString minutes ++ "m"

/-! ### Helper observers and decidability -/

/-- Decidable equality of `Except` outcomes, used to evaluate the embedded
functions at concrete inputs. -/
instance exceptDecEq {ε α : Type} [DecidableEq ε] [DecidableEq α] :
    DecidableEq (Except ε α)
  | .ok a, .ok b =>
      if h : a = b then .isTrue (by rw [h])
      else .isFalse (fun hc => h (Except.ok.inj hc))
  | .error a, .error b =>
      if h : a = b then .isTrue (by rw [h])
      else .isFalse (fun hc => h (Except.error.inj hc))
  | .ok _, .error _ => .isFalse (fun hc => Except.noConfusion hc)
  | .error _, .ok _ => .isFalse (fun hc => Except.noConfusion hc)

/-- Whether the start call for the given instance succeeds. -/
def startOk (env : ComputeEnv) (i : Instance) : Bool :=
  match tryStart env i.id with
  | .ok _ => true
  | .error _ => false

/-- The `failed` entry the loop builds for an instance whose start call
raises (filler entry when it succeeds, never used on that side). -/
def failEntryOf (env : ComputeEnv) (i : Instance) : FailEntry :=
  match tryStart env i.id with
  | .ok _ => ⟨i.id, i.name.getD "unnamed", ""⟩
  | .error e => ⟨i.id, i.name.getD "unnamed", e⟩

/-- Concrete environment exercising the batch: three listed instances, two
STOPPED (ids a and b) and one RUNNING; the start POST for id a fails at
network level, the one for id b returns 200. -/
def envBatch : ComputeEnv :=
  ⟨"folder1",
   Except.ok ⟨200, "",
     ⟨some [⟨some "a", some "vm-a", some "STOPPED"⟩,
            ⟨some "b", none, some "STOPPED"⟩,
            ⟨some "c", some "vm-c", some "RUNNING"⟩], some "npt"⟩⟩,
   fun iid =>
     if iid == some "a" then Except.error "boom"
     else Except.ok ⟨200, "", ()⟩⟩

/-- The listing result `envBatch` produces. -/
def resBatch : List Instance × Option String :=
  ([⟨some "a", some "vm-a", some "STOPPED"⟩,
    ⟨some "b", none, some "STOPPED"⟩,
    ⟨some "c", some "vm-c", some "RUNNING"⟩], some "npt")

/-- Concrete environment whose list GET fails at network level. -/
def envNet : ComputeEnv :=
  ⟨"folder1", Except.error "net down", fun _ => Except.ok ⟨200, "", ()⟩⟩

/-! ### Batch characterization lemmas -/

/-- Unfolding of the start loop: the `started` entries are the successful
stopped instances in order, the `failed` entries the failing ones, and a
start call is issued for every stopped instance. -/
theorem foldl_startStep (env : ComputeEnv) (l : List Instance)
    (s : List StartEntry) (f : List FailEntry) (c : List (Option String)) :
    l.foldl (startStep env) (s, f, c)
      = (s ++ (l.filter (startOk env)).map toStartEntry,
         f ++ (l.filter (fun i => !(startOk env i))).map (failEntryOf env),
         c ++ l.map Instance.id) := by
  induction l generalizing s f c with
  | nil => simp
  | cons i t ih =>
      cases h : tryStart env i.id with
      | ok u =>
          have hok : startOk env i = true := by simp [startOk, h]
          simp [List.foldl_cons, startStep, h, hok, List.filter_cons, ih]
      | error e =>
          have hok : startOk env i = false := by simp [startOk, h]
          have hfe : failEntryOf env i = ⟨i.id, i.name.getD "unnamed", e⟩ := by
            simp [failEntryOf, h]
          simp [List.foldl_cons, startStep, h, hok, List.filter_cons, ih, hfe]

/-- A boolean filter and its negation partition the length of a list. -/
theorem length_filter_add_length_filter_not {α : Type} (p : α → Bool) (l : List α) :
    (l.filter p).length + (l.filter (fun x => !(p x))).length = l.length := by
  induction l with
  | nil => rfl
  | cons a t ih => cases h : p a <;> simp [List.filter_cons, h] <;> omega

/-- Value of the auto-start run when the initial listing succeeds. -/
theorem auto_start_ok_eq (env : ComputeEnv) (res : List Instance × Option String)
    (h : (list_instances env 50 none).2 = Except.ok res) :
    auto_start_stopped_instances env
      = (⟨((stoppedOf res).filter (startOk env)).map toStartEntry,
          ((stoppedOf res).filter (fun i => !(startOk env i))).map (failEntryOf env),
          (stoppedOf res).length, none⟩,
         [(list_instances env 50 none).1],
         (stoppedOf res).map Instance.id) := by
  unfold auto_start_stopped_instances
  split
  · rename_i e he
    rw [h] at he
    exact absurd he (by simp)
  · rename_i r hr
    rw [h] at hr
    injection hr with hr
    subst hr
    rw [runBatch, foldl_startStep]
    simp

/-- Value of the auto-start run when the initial listing raises. -/
theorem auto_start_error_eq (env : ComputeEnv) (e : String)
    (h : (list_instances env 50 none).2 = Except.error e) :
    auto_start_stopped_instances env
      = (⟨[], [], 0, some e⟩, [(list_instances env 50 none).1], []) := by
  unfold auto_start_stopped_instances
  split
  · rename_i e2 he
    rw [h] at he
    injection he with he
    subst he
    rfl
  · rename_i r hr
    rw [h] at hr
    exact absurd hr (by simp)

/-! ### Claim theorems -/

/-- C1 fails as stated: when the cached token is missing and the identity
exchange reports an already-past expiry (here the Unix epoch, while the clock
reads 1000), `_get_valid_jwt` still returns the fresh token, whose recorded
expiry violates `now < expires_at - 300`. The code never re-checks the
safety margin on the refresh path. -/
theorem c1_refresh_ignores_safety_margin :
    getValidJwt ⟨1000, Except.ok ("t", "1970-01-01T00:00:00Z"), fun _ => 0⟩
        CacheState.absent
      = Except.ok ⟨"t", 0, CacheState.record (some "t") 0, 1⟩
    ∧ ¬ ((1000 : Int) < 0 - 300) :=
  ⟨rfl, by decide⟩

/-- C1 (amended): every token `_get_valid_jwt` returns WITHOUT performing an
identity exchange satisfies `now < expires_at - 300`; a freshly exchanged
token is returned with whatever expiry the identity endpoint reported,
unchecked. -/
theorem c1_cached_return_respects_safety_margin (env : AuthEnv)
    (cache : CacheState) (r : JwtResult)
    (h : getValidJwt env cache = Except.ok r) (h0 : r.exchanges = 0) :
    env.now < r.expiry - 300 := by
  by_cases hc : truthyStr (JWTCache.load cache).1 = false
      ∨ env.now ≥ (JWTCache.load cache).2 - 300
  · rw [getValidJwt, if_pos hc] at h
    cases hid : env.identity with
    | error e =>
        rw [hid] at h
        exact absurd h (by simp)
    | ok te =>
        rw [hid] at h
        injection h with h
        rw [← h] at h0
        simp at h0
  · rw [getValidJwt, if_neg hc] at h
    push_neg at hc
    injection h with h
    rw [← h]
    exact hc.2

/-- Witness for the amended C1 theorem at a concrete valid cached token. -/
theorem c1_cached_return_respects_safety_margin_witness :
    (0 : Int) < 1000 - 300 :=
  c1_cached_return_respects_safety_margin ⟨0, Except.error "unused", fun _ => 0⟩
    (CacheState.record (some "tok") 1000)
    ⟨"tok", 1000, CacheState.record (some "tok") 1000, 0⟩ rfl rfl

/-- C2 fails as stated: a cache record holding the empty-string token with a
comfortably fresh expiry (2000, clock at 1000) still triggers an identity
exchange, because `not iam_token` is true for the empty string; the returned
token is the fresh one and the cache file is rewritten. -/
theorem c2_empty_cached_token_still_refreshes :
    JWTCache.load (CacheState.record (some "") 2000) = (some "", 2000)
    ∧ ((2000 : Int) - 1000 > 300)
    ∧ getValidJwt ⟨1000, Except.ok ("fresh", "iso"), fun _ => 5000⟩
        (CacheState.record (some "") 2000)
      = Except.ok ⟨"fresh", 5000, CacheState.record (some "fresh") 5000, 1⟩ :=
  ⟨rfl, by decide, rfl⟩

/-- C2 (amended): for every cached token that is non-empty and whose expiry
satisfies `expires_at - now > 300`, `_get_valid_jwt` performs no identity
exchange and returns exactly the cached token, with the cache unchanged. -/
theorem c2_fresh_cached_token_reused (env : AuthEnv) (cache : CacheState)
    (tok : String) (e : Int) (hl : JWTCache.load cache = (some tok, e))
    (hne : tok ≠ "") (hfresh : e - env.now > 300) :
    getValidJwt env cache = Except.ok ⟨tok, e, cache, 0⟩ := by
  have hcond : ¬ (truthyStr (JWTCache.load cache).1 = false
      ∨ env.now ≥ (JWTCache.load cache).2 - 300) := by
    rw [hl]
    push_neg
    refine ⟨?_, by omega⟩
    simp [truthyStr, hne]
  rw [getValidJwt, if_neg hcond, hl]
  rfl

/-- Witness for the amended C2 theorem at a concrete fresh cached token. -/
theorem c2_fresh_cached_token_reused_witness :
    getValidJwt ⟨0, Except.error "unused", fun _ => 0⟩
        (CacheState.record (some "tok") 1000)
      = Except.ok ⟨"tok", 1000, CacheState.record (some "tok") 1000, 0⟩ :=
  c2_fresh_cached_token_reused ⟨0, Except.error "unused", fun _ => 0⟩
    (CacheState.record (some "tok") 1000) "tok" 1000 rfl (by decide) (by decide)

/-- C3: when the cached token is missing or within the 300-second margin,
`_get_valid_jwt` performs exactly one identity exchange, converts the
returned ISO-8601 expiry with `iso_to_unix`, persists the fresh token and
converted expiry to the cache, and returns the fresh token. -/
theorem c3_refresh_exchanges_converts_persists_returns (env : AuthEnv)
    (cache : CacheState) (tok iso : String)
    (hmiss : (JWTCache.load cache).1 = none
      ∨ (JWTCache.load cache).2 - env.now ≤ 300)
    (hid : env.identity = Except.ok (tok, iso)) :
    getValidJwt env cache
      = Except.ok ⟨tok, env.isoToUnix iso,
          JWTCache.save tok (env.isoToUnix iso) cache, 1⟩ := by
  have hcond : truthyStr (JWTCache.load cache).1 = false
      ∨ env.now ≥ (JWTCache.load cache).2 - 300 := by
    rcases hmiss with h | h
    · left
      rw [h]
      rfl
    · right
      omega
  rw [getValidJwt, if_pos hcond, hid]

/-- Witness for the C3 theorem at a concrete absent cache. -/
theorem c3_refresh_exchanges_converts_persists_returns_witness :
    getValidJwt ⟨0, Except.ok ("t", "i"), fun _ => 42⟩ CacheState.absent
      = Except.ok ⟨"t", 42, CacheState.record (some "t") 42, 1⟩ :=
  c3_refresh_exchanges_converts_persists_returns
    ⟨0, Except.ok ("t", "i"), fun _ => 42⟩ CacheState.absent "t" "i"
    (Or.inl rfl) rfl

/-- C4: whenever the initial listing succeeds, the auto-start result
satisfies `total_stopped = len(started) + len(failed)` — every STOPPED
instance of the first page lands in exactly one of the two lists. -/
theorem c4_total_stopped_counts_started_plus_failed (env : ComputeEnv)
    (res : List Instance × Option String)
    (h : (list_instances env 50 none).2 = Except.ok res) :
    (auto_start_stopped_instances env).1.total_stopped
      = (auto_start_stopped_instances env).1.started.length
        + (auto_start_stopped_instances env).1.failed.length := by
  rw [auto_start_ok_eq env res h]
  simp only [List.length_map]
  exact (length_filter_add_length_filter_not (startOk env) (stoppedOf res)).symm

/-- Witness for the C4 theorem on the concrete batch environment. -/
theorem c4_total_stopped_counts_started_plus_failed_witness :
    (auto_start_stopped_instances envBatch).1.total_stopped
      = (auto_start_stopped_instances envBatch).1.started.length
        + (auto_start_stopped_instances envBatch).1.failed.length :=
  c4_total_stopped_counts_started_plus_failed envBatch resBatch rfl

/-- C5: in a batch where exactly one stopped instance fails to start, the
run completes with no top-level error, `started` holds all but one of the
stopped instances, `failed` holds exactly one entry, a start call is issued
for every stopped instance in listing order (a failure never aborts the
batch), and the failed entry carries the id, the name (defaulted to
"unnamed") and the error text of the failing start call. -/
theorem c5_single_failure_partial_success (env : ComputeEnv)
    (res : List Instance × Option String)
    (h : (list_instances env 50 none).2 = Except.ok res)
    (hone : ((stoppedOf res).filter (fun i => !(startOk env i))).length = 1) :
    (auto_start_stopped_instances env).1.error = none
    ∧ (auto_start_stopped_instances env).1.started.length + 1
        = (stoppedOf res).length
    ∧ (auto_start_stopped_instances env).1.failed.length = 1
    ∧ (auto_start_stopped_instances env).2.2 = (stoppedOf res).map Instance.id
    ∧ ∀ fe ∈ (auto_start_stopped_instances env).1.failed,
        ∃ i ∈ stoppedOf res, fe.id = i.id ∧ fe.name = i.name.getD "unnamed"
          ∧ tryStart env i.id = Except.error fe.error := by
  rw [auto_start_ok_eq env res h]
  have hp := length_filter_add_length_filter_not (startOk env) (stoppedOf res)
  refine ⟨rfl, ?_, ?_, rfl, ?_⟩
  · simp only [List.length_map]
    omega
  · simp only [List.length_map]
    exact hone
  · intro fe hfe
    simp only [List.mem_map] at hfe
    obtain ⟨i, hi, hfei⟩ := hfe
    obtain ⟨him, hipred⟩ := List.mem_filter.mp hi
    refine ⟨i, him, ?_⟩
    cases ht : tryStart env i.id with
    | ok u =>
        have : startOk env i = true := by simp [startOk, ht]
        rw [this] at hipred
        simp at hipred
    | error err =>
        have hfe2 : failEntryOf env i = ⟨i.id, i.name.getD "unnamed", err⟩ := by
          simp [failEntryOf, ht]
        rw [hfe2] at hfei
        rw [← hfei]
        exact ⟨rfl, rfl, rfl⟩

/-- Witness for the C5 theorem on the concrete batch environment: two
stopped instances, the first fails, the second is still started. -/
theorem c5_single_failure_partial_success_witness :
    (auto_start_stopped_instances envBatch).1.error = none
    ∧ (auto_start_stopped_instances envBatch).1.started.length + 1
        = (stoppedOf resBatch).length
    ∧ (auto_start_stopped_instances envBatch).1.failed.length = 1
    ∧ (auto_start_stopped_instances envBatch).2.2
        = (stoppedOf resBatch).map Instance.id
    ∧ ∀ fe ∈ (auto_start_stopped_instances envBatch).1.failed,
        ∃ i ∈ stoppedOf resBatch, fe.id = i.id ∧ fe.name = i.name.getD "unnamed"
          ∧ tryStart envBatch i.id = Except.error fe.error :=
  c5_single_failure_partial_success envBatch resBatch rfl (by decide)

/-- C6: when the initial listing raises, the run swallows the exception and
returns the empty result annotated with the error text. -/
theorem c6_listing_failure_returns_empty_annotated (env : ComputeEnv)
    (e : String) (h : (list_instances env 50 none).2 = Except.error e) :
    (auto_start_stopped_instances env).1 = ⟨[], [], 0, some e⟩ := by
  rw [auto_start_error_eq env e h]

/-- Witness for the C6 theorem on a concrete network failure. -/
theorem c6_listing_failure_returns_empty_annotated_witness :
    (auto_start_stopped_instances envNet).1 = ⟨[], [], 0, some "net down"⟩ :=
  c6_listing_failure_returns_empty_annotated envNet "net down" rfl

/-- C7 fails as stated: a 201 response is 2xx, yet all three calls raise on
it, because the code tests `status_code == 200` rather than the 2xx range. -/
theorem c7_status_201_raises :
    ((200 : Nat) ≤ 201 ∧ (201 : Nat) < 300)
    ∧ make_request (⟨201, "created", (42 : Nat)⟩ : HttpResponse Nat)
        = Except.error ⟨201, "created"⟩
    ∧ start_instance (⟨201, "created", (0 : Nat)⟩ : HttpResponse Nat)
        = Except.error ⟨201, "created"⟩
    ∧ stop_instance (⟨201, "created", (0 : Nat)⟩ : HttpResponse Nat)
        = Except.error ⟨201, "created"⟩ :=
  ⟨by decide, rfl, rfl, rfl⟩

/-- C7 (amended): each of the three response handlers succeeds with the
decoded JSON body exactly on status 200, and on any other status raises an
error carrying the response status code and body text. -/
theorem c7_only_200_succeeds {α : Type} (resp : HttpResponse α) :
    (resp.status_code = 200 →
        make_request resp = Except.ok resp.body
        ∧ start_instance resp = Except.ok resp.body
        ∧ stop_instance resp = Except.ok resp.body)
    ∧ (resp.status_code ≠ 200 →
        make_request resp = Except.error ⟨resp.status_code, resp.text⟩
        ∧ start_instance resp = Except.error ⟨resp.status_code, resp.text⟩
        ∧ stop_instance resp = Except.error ⟨resp.status_code, resp.text⟩) := by
  constructor
  · intro h
    exact ⟨by simp [make_request, h], by simp [start_instance, h],
           by simp [stop_instance, h]⟩
  · intro h
    exact ⟨by simp [make_request, h], by simp [start_instance, h],
           by simp [stop_instance, h]⟩

/-- Witness for the amended C7 theorem at a 200 and a 404 response. -/
theorem c7_only_200_succeeds_witness :
    make_request (⟨200, "", (7 : Nat)⟩ : HttpResponse Nat) = Except.ok 7
    ∧ make_request (⟨404, "nf", (7 : Nat)⟩ : HttpResponse Nat)
        = Except.error ⟨404, "nf"⟩ :=
  ⟨((c7_only_200_succeeds ⟨200, "", 7⟩).1 rfl).1,
   ((c7_only_200_succeeds ⟨404, "nf", 7⟩).2 (by decide)).1⟩

/-- C8: every auto-start run issues exactly one list request, with the
default page size 50 and no page token; no follow-up request with the
returned `nextPageToken` is ever issued, so only first-page instances are
considered. -/
theorem c8_single_default_list_request (env : ComputeEnv) :
    (auto_start_stopped_instances env).2.1 = [⟨env.folderId, 50, none⟩] := by
  unfold auto_start_stopped_instances
  split <;> rfl

/-- C9 fails as stated: an empty-string page token supplied by the caller is
dropped rather than forwarded, because `if page_token:` is false for the
empty string. -/
theorem c9_empty_page_token_not_forwarded :
    (list_instances ⟨"folder", Except.error "net", fun _ => Except.error "x"⟩
        50 (some "")).1.pageToken = none
    ∧ (none : Option String) ≠ some "" :=
  ⟨rfl, by decide⟩

/-- C9 (amended): every non-empty page token supplied by the caller is
forwarded unmodified as the `pageToken` request parameter, and on a 200
response the `nextPageToken` field is returned to the caller unmodified
(`none` when the provider omits it). -/
theorem c9_nonempty_token_and_next_page_token_pass_through (env : ComputeEnv)
    (ps : Nat) (tok : String) (hne : tok ≠ "")
    (resp : HttpResponse ListBody) (hresp : env.listOutcome = Except.ok resp)
    (h200 : resp.status_code = 200) :
    (list_instances env ps (some tok)).1.pageToken = some tok
    ∧ (list_instances env ps (some tok)).2
        = Except.ok (resp.body.instances.getD [], resp.body.nextPageToken) := by
  constructor
  · simp [list_instances, normalizeToken, hne]
  · simp [list_instances, hresp, make_request, h200]

/-- Witness for the amended C9 theorem at a concrete request and response. -/
theorem c9_nonempty_token_and_next_page_token_pass_through_witness :
    (list_instances envBatch 7 (some "T")).1.pageToken = some "T"
    ∧ (list_instances envBatch 7 (some "T")).2
        = Except.ok
            ([⟨some "a", some "vm-a", some "STOPPED"⟩,
              ⟨some "b", none, some "STOPPED"⟩,
              ⟨some "c", some "vm-c", some "RUNNING"⟩], some "npt") :=
  c9_nonempty_token_and_next_page_token_pass_through envBatch 7 "T"
    (by decide) ⟨200, "",
      ⟨some [⟨some "a", some "vm-a", some "STOPPED"⟩,
             ⟨some "b", none, some "STOPPED"⟩,
             ⟨some "c", some "vm-c", some "RUNNING"⟩], some "npt"⟩⟩ rfl rfl

/-- C10: `calculate_uptime` is a total function of its inputs (the embedding
returns a string for every status and created_at), and whenever the
creation timestamp fails to parse — for any status, in particular RUNNING
with the empty string substituted for a missing createdAt — it yields
"N/A" instead of propagating the parse error. -/
theorem c10_unparseable_created_at_gives_na (parseIso : String → Option Int)
    (now : Int) (created_at status : String)
    (hp : parseIso (created_at.replace "Z" "+00:00") = none) :
    calculate_uptime parseIso now created_at status = "N/A" := by
  unfold calculate_uptime
  split
  · rfl
  · rw [hp]

/-- Witness for the C10 theorem: a RUNNING instance with an unparseable
(empty) created_at gets uptime "N/A". -/
theorem c10_unparseable_created_at_gives_na_witness :
    calculate_uptime (fun _ => none) 0 "" "RUNNING" = "N/A" :=
  c10_unparseable_created_at_gives_na (fun _ => none) 0 "" "RUNNING" rfl

end YandexCloud
